import Mathlib

/-!
Verification of the memAI conversation-memory system.

This file gives a shallow embedding of the core algorithms of the memAI
repository and proves/refutes the specified properties about them:

* `token_counter.py` (`SimpleTokenCounter`): heuristic token estimation;
* `unified_memory_manager.py` (`UnifiedMemoryManager`): conversation trimming
  to a token budget and context-message preparation;
* `memai.py` (`TokenEstimator`, `MemoryManager`): per-append trimming to the
  context window;
* `adaptive_budget_manager.py` (`AdaptiveBudgetManager`): query-complexity
  analysis and adaptive budget allocation.

Python `float` arithmetic is idealised as exact arithmetic (`ℚ` where the
computation is algebraic, `ℝ` where `math.sqrt` occurs); Python `int(x)`
(truncation toward zero) is modelled explicitly.  Python dictionaries that
carry optional keys are modelled as structures with `Option`-valued fields.
-/

namespace MemAI

/-- Python `int(x)` on a rational: truncation toward zero. -/
def pyIntQ (x : ℚ) : ℤ := if x < 0 then ⌈x⌉ else ⌊x⌋

/-! ## `token_counter.py` — `SimpleTokenCounter` -/

/-- Character class of the emoji regex in `SimpleTokenCounter.__init__`:
`[\U0001F600-\U0001F64F\U0001F300-\U0001F5FF\U0001F680-\U0001F6FF
\U0001F1E0-\U0001F1FF\U00002700-\U000027BF\U0001F900-\U0001F9FF
\U0001F018-\U0001F270]`. -/
def isEmojiChar (c : Char) : Bool :=
  let n := c.toNat
  (0x1F600 ≤ n && n ≤ 0x1F64F) || (0x1F300 ≤ n && n ≤ 0x1F5FF) ||
  (0x1F680 ≤ n && n ≤ 0x1F6FF) || (0x1F1E0 ≤ n && n ≤ 0x1F1FF) ||
  (0x2700 ≤ n && n ≤ 0x27BF) || (0x1F900 ≤ n && n ≤ 0x1F9FF) ||
  (0x1F018 ≤ n && n ≤ 0x1F270)

/-- Code points of the symbol regex `[(){}[\]<>=!@#$%^&*+\-_|\\:;"\',./`~]`
in `SimpleTokenCounter.__init__` (written as numeric codes). -/
def symbolCodes : List Nat :=
  [40, 41, 123, 125, 91, 93, 60, 62, 61, 33, 64, 35, 36, 37, 94, 38, 42, 43,
   45, 95, 124, 92, 58, 59, 34, 39, 44, 46, 47, 96, 126]

def isSymbolChar (c : Char) : Bool := symbolCodes.contains c.toNat

/-- Auxiliary for `splitWs`: accumulates the current word (reversed). -/
def splitWsAux : List Char → List Char → List (List Char)
  | [], acc => if acc.isEmpty then [] else [acc.reverse]
  | c :: rest, acc =>
    if c.isWhitespace then
      if acc.isEmpty then splitWsAux rest [] else acc.reverse :: splitWsAux rest []
    else splitWsAux rest (c :: acc)

/-- Python `text.split()`: split on whitespace runs, dropping empty pieces. -/
def splitWs (s : List Char) : List (List Char) := splitWsAux s []

/-- `SimpleTokenCounter.estimate_tokens` with explicit `base_ratio` and
`safety_multiplier` parameters (`token_counter.py:31`). -/
def estimateTokensWith (baseRatio safetyMultiplier : ℚ) (text : String) : ℤ :=
  if text = "" then 0
  else
    let cs := text.data
    let base : ℚ := max 1 ((cs.length : ℚ) / baseRatio)
    let emojiCount : ℕ := (cs.filter isEmojiChar).length
    let symbolCount : ℕ := (cs.filter isSymbolChar).length
    let nonAsciiCount : ℕ := (cs.filter (fun c => 127 < c.toNat)).length
    let longWordChars : ℤ :=
      (((splitWs cs).filter (fun w => 20 < w.length)).map
        (fun w => (w.length : ℤ) - 20)).sum
    let longWordPenalty : ℚ := (max 0 longWordChars : ℤ) / 10
    let adjusted : ℚ :=
      base + (emojiCount : ℚ) * 2 + (symbolCount : ℚ) * (3 / 10) +
        ((nonAsciiCount : ℚ) - (emojiCount : ℚ)) * (1 / 2) + longWordPenalty
    max 1 (pyIntQ (adjusted * safetyMultiplier))

/-- `SimpleTokenCounter.estimate_tokens` at the default parameters
(`base_ratio = 3.0`, `safety_multiplier = 1.2`). -/
def estimate_tokens (text : String) : ℤ := estimateTokensWith 3 (6 / 5) text

/-! ## Python dicts of `unified_memory_manager.py`

An exchange dict is `{'user': {'tokens':…, 'content':…}, 'assistant': …}`;
a context message dict is `{'role':…, 'content':…}`.  Both flow through the
same duck-typed functions, so both are modelled by one structure whose
fields record which keys are present. -/

structure Side where
  tokens? : Option ℤ
  content? : Option String
deriving DecidableEq

structure PyDict where
  user? : Option Side
  assistant? : Option Side
  role? : Option String
  content? : Option String
deriving DecidableEq

/-- An exchange dict (keys `user`/`assistant` only). -/
def mkExchange (u a : Side) : PyDict := ⟨some u, some a, none, none⟩

/-- A message dict (keys `role`/`content` only), as built by
`UnifiedMemoryManager._build_context_messages`. -/
def mkMessage (role content : String) : PyDict := ⟨none, none, some role, some content⟩

/-- `SimpleTokenCounter.estimate_conversation_tokens` (`token_counter.py:90`):
per dict, use `content` if present, else the `user`/`assistant` contents. -/
def messageTokens (m : PyDict) : ℤ :=
  match m.content? with
  | some c => estimate_tokens c
  | none =>
    match m.user?, m.assistant? with
    | some u, some a =>
      (match u.content? with | some c => estimate_tokens c | none => 0) +
      (match a.content? with | some c => estimate_tokens c | none => 0)
    | _, _ => 0

def estimate_conversation_tokens (conv : List PyDict) : ℤ :=
  (conv.map messageTokens).sum

/-- One side of `UnifiedMemoryManager._estimate_exchange_tokens`
(`unified_memory_manager.py:492`): prefer the stored `tokens` field, fall
back to estimating `content`, else 0. -/
def sideTokens : Option Side → ℤ
  | none => 0
  | some s =>
    match s.tokens? with
    | some t => t
    | none =>
      match s.content? with
      | some c => estimate_tokens c
      | none => 0

/-- `UnifiedMemoryManager._estimate_exchange_tokens`.  Note that it reads the
keys `user` and `assistant` only: on a `{'role','content'}` message dict both
lookups miss and the result is 0. -/
def estimate_exchange_tokens (e : PyDict) : ℤ := sideTokens e.user? + sideTokens e.assistant?

/-- Total of `estimate_exchange_tokens` over a list. -/
def exchangesTokenTotal (l : List PyDict) : ℤ := (l.map estimate_exchange_tokens).sum

/-- Loop of `UnifiedMemoryManager._trim_conversation_to_budget`
(`unified_memory_manager.py:472`): walk the reversed conversation, keep an
exchange while the running total stays within budget, stop at the first
exchange that would exceed it; `trimmed.insert(0, exchange)` is the
`e :: trimmed` prepend. -/
def trimGo (budget : ℤ) : List PyDict → ℤ → List PyDict → List PyDict
  | [], _, trimmed => trimmed
  | e :: rest, current, trimmed =>
    let t := estimate_exchange_tokens e
    if current + t ≤ budget then trimGo budget rest (current + t) (e :: trimmed)
    else trimmed

/-- `UnifiedMemoryManager._trim_conversation_to_budget`. -/
def trim_conversation_to_budget (conversation : List PyDict) (budget : ℤ) : List PyDict :=
  if conversation = [] ∨ budget ≤ 0 then []
  else trimGo budget conversation.reverse 0 []

/-- The trimming rule in the words of the specification (for the refinement
claim about `_trim_conversation_to_budget`): accumulate per-exchange token
estimates from the most recent exchange backward, include an exchange only
while the running total stays within budget, stop at the first exchange that
would exceed it.  `specTake` works on the reversed (newest-first) list. -/
def specTake (budget : ℤ) : List PyDict → ℤ → List PyDict
  | [], _ => []
  | e :: rest, current =>
    let t := estimate_exchange_tokens e
    if current + t ≤ budget then e :: specTake budget rest (current + t) else []

/-- The selected suffix, returned in original chronological order. -/
def trimToBudgetSpec (conversation : List PyDict) (budget : ℤ) : List PyDict :=
  (specTake budget conversation.reverse 0).reverse

/-- `UnifiedMemoryManager._build_context_messages`
(`unified_memory_manager.py:512`): emit a `user`/`assistant` message per side
whose `content` is present and truthy (non-empty). -/
def build_context_messages (conv : List PyDict) : List PyDict :=
  (conv.map (fun e =>
    (match e.user? with
     | some u =>
       match u.content? with
       | some c => if c ≠ "" then [mkMessage "user" c] else []
       | none => []
     | none => []) ++
    (match e.assistant? with
     | some a =>
       match a.content? with
       | some c => if c ≠ "" then [mkMessage "assistant" c] else []
       | none => []
     | none => []))).flatten

/-- `UnifiedMemoryManager._get_conversation_within_budget`
(`unified_memory_manager.py:452`). -/
def get_conversation_within_budget (history : List PyDict) (budget : ℤ)
    (minimumExchanges : ℕ) : List PyDict :=
  if history = [] then []
  else if history.length ≤ minimumExchanges then history
  else
    let trimmed := trim_conversation_to_budget history budget
    if trimmed.length < minimumExchanges ∧ minimumExchanges ≤ history.length then
      history.drop (history.length - minimumExchanges)
    else trimmed

/-- Step 6 of `UnifiedMemoryManager.prepare_context_for_model`
(`unified_memory_manager.py:121`): re-estimate the built messages and, if
they exceed the memory budget, re-trim them with
`_trim_conversation_to_budget`. -/
def prepareStep4 (msgs : List PyDict) (memoryBudget : ℤ) : List PyDict :=
  if memoryBudget < estimate_conversation_tokens msgs
  then trim_conversation_to_budget msgs memoryBudget
  else msgs

/-- Steps 4–6 of `prepare_context_for_model`: load the history within budget,
build context messages, re-check the budget. -/
def prepare_context_messages (history : List PyDict) (memoryBudget : ℤ)
    (minimumExchanges : ℕ) : List PyDict :=
  prepareStep4 (build_context_messages
    (get_conversation_within_budget history memoryBudget minimumExchanges)) memoryBudget

/-! ## `memai.py` — `TokenEstimator` and `MemoryManager` -/

/-- An exchange as stored by `memai.py` (`MemoryManager.add_exchange`):
`{"timestamp": …, "user": …, "assistant": …}`, all keys always present. -/
structure MExchange where
  timestamp : String
  user : String
  assistant : String
deriving DecidableEq

/-- `TokenEstimator.estimate_tokens` (`memai.py:56`): 0 for falsy text, else
`max(1, int(len(text) / 3.0))`. -/
def te_estimate_tokens (text : String) : ℤ :=
  if text = "" then 0 else max 1 (pyIntQ ((text.data.length : ℚ) / 3))

/-- `TokenEstimator.estimate_conversation_tokens` (`memai.py:62`). -/
def te_estimate_conversation_tokens (exchanges : List MExchange) : ℤ :=
  (exchanges.map (fun e => te_estimate_tokens e.user + te_estimate_tokens e.assistant)).sum

/-- `MemoryManager._trim_to_context_window` (`memai.py:182`): while more than
one exchange remains and the estimated total exceeds `context_window * 0.8`,
pop the oldest exchange. -/
def trim_to_context_window : List MExchange → ℤ → List MExchange
  | [], _ => []
  | [e], _ => [e]
  | e :: rest, contextWindow =>
    if (te_estimate_conversation_tokens (e :: rest) : ℚ) ≤ (contextWindow : ℚ) * (4 / 5)
    then e :: rest
    else trim_to_context_window rest contextWindow

/-- The conversation part of `MemoryManager.add_exchange` (`memai.py:163`):
append the new exchange, then trim to the context window. -/
def mm_add_exchange (exchanges : List MExchange) (e : MExchange)
    (contextWindow : ℤ) : List MExchange :=
  trim_to_context_window (exchanges ++ [e]) contextWindow

/-! ## `adaptive_budget_manager.py` — `AdaptiveBudgetManager`

The complexity analyser works on `List Char`.  `math.sqrt` is modelled by
`Real.sqrt`, so the keyword sub-score (and everything downstream of it)
lives in `ℝ`. -/

open Classical in
/-- Python `int(x)` on a real: truncation toward zero. -/
noncomputable def pyIntR (x : ℝ) : ℤ := if x < 0 then ⌈x⌉ else ⌊x⌋

/-- Python `text.strip()`. -/
def pyStrip (s : List Char) : List Char :=
  ((s.dropWhile Char.isWhitespace).reverse.dropWhile Char.isWhitespace).reverse

/-- Python `text.lower()`. -/
def pyLower (s : List Char) : List Char := s.map Char.toLower

/-- Worker for `countSubstr`: scans the text left to right; after a match the
next `pat.length - 1` positions are skipped (non-overlapping count). -/
def countSubstrGo (pat : List Char) : List Char → ℕ → ℕ
  | [], _ => 0
  | _ :: rest, k + 1 => countSubstrGo pat rest k
  | c :: rest, 0 =>
    if pat.isPrefixOf (c :: rest) then 1 + countSubstrGo pat rest (pat.length - 1)
    else countSubstrGo pat rest 0

/-- Python `text.count(pat)`: non-overlapping occurrences, scanned from the
left. -/
def countSubstr (text pat : List Char) : ℕ :=
  if pat.isEmpty then text.length + 1 else countSubstrGo pat text 0

/-- `ComplexityFactors.ANALYSIS_KEYWORDS` (`adaptive_budget_manager.py:24`). -/
def ANALYSIS_KEYWORDS : List (String × ℚ) :=
  [("analyze", 2), ("explain", 3/2), ("compare", 2), ("evaluate", 5/2),
   ("implement", 3), ("create", 2), ("design", 5/2), ("develop", 5/2),
   ("optimize", 5/2), ("debug", 2), ("refactor", 2), ("review", 3/2),
   ("summarize", 3/2), ("research", 2), ("investigate", 2)]

/-- `ComplexityFactors.QUESTION_INDICATORS` (`adaptive_budget_manager.py:42`). -/
def QUESTION_INDICATORS : List (String × ℚ) :=
  [("how", 1), ("what", 1/2), ("why", 3/2), ("when", 1/2), ("where", 1/2),
   ("which", 4/5), ("who", 3/10), ("can you", 6/5), ("could you", 6/5),
   ("explain how", 2), ("show me", 3/2), ("help me", 9/5)]

/-- The `question_words` list of `_calculate_question_complexity`. -/
def QUESTION_WORDS : List String := ["?", "how", "what", "why", "when", "where", "which"]

/-- `AdaptiveBudgetManager._calculate_length_complexity`
(`adaptive_budget_manager.py:146`). -/
def calculate_length_complexity (length : ℕ) : ℚ :=
  if length ≤ 50 then 1/10
  else if length ≤ 150 then 3/10
  else if length ≤ 300 then 3/5
  else min (9/10) (3/5 + (((length : ℚ) - 300) / 1000) * (3/10))

/-- The per-keyword `(weight, occurrence count)` pairs scanned by
`_calculate_keyword_complexity`. -/
def keywordPairs (text : List Char) : List (ℚ × ℕ) :=
  ANALYSIS_KEYWORDS.map (fun kw => (kw.2, countSubstr text kw.1.data))

/-- `keyword_weights` accumulated by `_calculate_keyword_complexity`:
`weight * sqrt(count)` for each keyword that occurs. -/
noncomputable def keyword_weights (text : List Char) : ℝ :=
  ((keywordPairs text).map
    (fun p => if p.2 = 0 then 0 else (p.1 : ℝ) * Real.sqrt (p.2 : ℕ))).sum

/-- `keyword_count` accumulated by `_calculate_keyword_complexity`. -/
def keyword_count (text : List Char) : ℕ := ((keywordPairs text).map Prod.snd).sum

/-- The `density` of `_calculate_keyword_complexity`: keywords per 10
characters, `keyword_count / max(1, text_length / 10)`. -/
def keyword_density (text : List Char) (textLength : ℕ) : ℚ :=
  (keyword_count text : ℚ) / max 1 ((textLength : ℚ) / 10)

open Classical in
/-- `AdaptiveBudgetManager._calculate_keyword_complexity`
(`adaptive_budget_manager.py:159`): 0 if no keyword occurs; otherwise the
accumulated weights, halved if the keyword density exceeds 0.3, divided by
10 and capped at 1. -/
noncomputable def calculate_keyword_complexity (text : List Char) (textLength : ℕ) : ℝ :=
  if keyword_weights text = 0 then 0
  else min 1
    ((if 3/10 < keyword_density text textLength
      then keyword_weights text * (1/2) else keyword_weights text) / 10)

/-- Word character of the regex `\w` (ASCII approximation). -/
def isWordChar (c : Char) : Bool := c.isAlphanum || c = '_'

/-- The backtick character (code 96). -/
def tickChar : Char := Char.ofNat 96

/-- Whether the list starts with three backticks. -/
def isTripleTickAt : List Char → Bool
  | a :: b :: c :: _ => a = tickChar && b = tickChar && c = tickChar
  | _ => false

/-- Scan to just past the first occurrence of three backticks. -/
def afterTripleTick : List Char → Option (List Char)
  | [] => none
  | c :: rest =>
    if isTripleTickAt (c :: rest) then some (rest.drop 2) else afterTripleTick rest

/-- Count of matches of the fenced-code-block pattern (non-greedy
```` ```[\s\S]*?``` ````): pairs of triple-backtick delimiters, scanned left
to right. -/
def countCodeBlocks (s : List Char) : ℕ :=
  match h1 : afterTripleTick s with
  | none => 0
  | some rest1 =>
    match h2 : afterTripleTick rest1 with
    | none => 0
    | some rest2 => 1 + countCodeBlocks rest2
termination_by s.length
decreasing_by
  have key : ∀ s r, afterTripleTick s = some r → r.length < s.length := by
    intro s
    induction s with
    | nil => intro r h; simp [afterTripleTick] at h
    | cons c rest ih =>
      intro r h
      simp only [afterTripleTick] at h
      by_cases hh : isTripleTickAt (c :: rest) = true
      · rw [if_pos hh] at h
        cases h
        simp only [List.length_drop, List.length_cons]
        omega
      · rw [if_neg hh] at h
        have := ih r h
        simp only [List.length_cons]
        omega
  have a1 := key s rest1 h1
  have a2 := key rest1 rest2 h2
  omega

/-- Count of matches of the inline-code pattern `` `[^`]+` ``: a backtick, at
least one non-backtick, a closing backtick; non-overlapping, scanned left to
right. -/
def countInlineCode : List Char → ℕ
  | [] => 0
  | c :: rest =>
    if c = tickChar then
      let run := rest.takeWhile (fun d => d != tickChar)
      match h : rest.drop run.length with
      | d :: rest2 =>
        if run.length = 0 then countInlineCode (d :: rest2) else 1 + countInlineCode rest2
      | [] => 0
    else countInlineCode rest
termination_by l => l.length
decreasing_by
  · have := congrArg List.length h
    simp only [List.length_drop, List.length_cons] at this ⊢
    omega
  · have := congrArg List.length h
    simp only [List.length_drop, List.length_cons] at this ⊢
    omega
  · simp

/-- One attempted match of a keyword pattern `kw\s+\w+` at the head of `l`:
the keyword, at least one whitespace, at least one word character (both
greedy).  Returns the remainder after the match, or `none` if the pattern
does not match here. -/
def kwMatchRest (pat l : List Char) : Option (List Char) :=
  if pat.isPrefixOf l then
    let after := l.drop pat.length
    let ws := after.takeWhile Char.isWhitespace
    if ws.length = 0 then none
    else
      let afterWs := after.drop ws.length
      let word := afterWs.takeWhile isWordChar
      if word.length = 0 then none
      else some (afterWs.drop word.length)
  else none

/-- Count of matches of a keyword pattern `kw\s+\w+` (for `def`, `class`,
`import`): non-overlapping, scanned left to right on the lowered text (the
Python regexes carry `re.IGNORECASE`). -/
def countKwPattern (pat : List Char) : List Char → ℕ
  | [] => 0
  | c :: rest =>
    match h : kwMatchRest pat (c :: rest) with
    | some r => 1 + countKwPattern pat r
    | none => countKwPattern pat rest
termination_by l => l.length
decreasing_by
  · have key : ∀ l r : List Char, kwMatchRest pat l = some r → r.length < l.length := by
      intro l r hh
      unfold kwMatchRest at hh
      by_cases h1 : pat.isPrefixOf l = true
      · rw [if_pos h1] at hh
        simp only at hh
        set after := l.drop pat.length with hafter
        set ws := after.takeWhile Char.isWhitespace with hws
        by_cases h2 : ws.length = 0
        · rw [if_pos h2] at hh
          exact absurd hh (by simp)
        · rw [if_neg h2] at hh
          set afterWs := after.drop ws.length with hafterWs
          set word := afterWs.takeWhile isWordChar with hword
          by_cases h3 : word.length = 0
          · rw [if_pos h3] at hh
            exact absurd hh (by simp)
          · rw [if_neg h3] at hh
            have hr : r = afterWs.drop word.length := by
              cases hh
              rfl
            have hwsle : ws.length ≤ after.length :=
              List.Sublist.length_le (List.takeWhile_sublist _)
            have h4 : afterWs.length = after.length - ws.length := by
              rw [hafterWs, List.length_drop]
            have h5 : after.length ≤ l.length := by
              rw [hafter, List.length_drop]
              omega
            have h6 : r.length ≤ afterWs.length := by
              rw [hr, List.length_drop]
              omega
            omega
      · rw [if_neg h1] at hh
        exact absurd hh (by simp)
    exact key _ _ h
  · simp

/-- Count of matches of the markup-tag pattern `<[\w/]+>`. -/
def countTags : List Char → ℕ
  | [] => 0
  | c :: rest =>
    if c = '<' then
      let run := rest.takeWhile (fun d => isWordChar d || d = '/')
      match h : rest.drop run.length with
      | d :: rest2 =>
        if run.length ≠ 0 ∧ d = '>' then 1 + countTags rest2 else countTags rest
      | [] => 0
    else countTags rest
termination_by l => l.length
decreasing_by
  · have := congrArg List.length h
    simp only [List.length_drop, List.length_cons] at this ⊢
    omega
  · simp
  · simp

/-- `AdaptiveBudgetManager._calculate_code_complexity`
(`adaptive_budget_manager.py:184`): fenced blocks contribute 0.5 per match,
every other pattern 0.1 per match, capped at 1; it runs on the original-case
input (the regexes are case-insensitive, modelled by scanning the lowered
text for the keyword patterns). -/
def calculate_code_complexity (original : List Char) : ℚ :=
  let lowered := pyLower original
  min 1 ((countCodeBlocks original : ℚ) * (1/2) +
    ((countInlineCode original + countKwPattern "def".data lowered +
      countKwPattern "class".data lowered + countKwPattern "import".data lowered +
      countTags original : ℕ) : ℚ) * (1/10))

/-- The `question_score` accumulated by `_calculate_question_complexity`:
the summed weights of the indicators present in the text. -/
def question_score (text : List Char) : ℚ :=
  (QUESTION_INDICATORS.map
    (fun p => if 0 < countSubstr text p.1.data then p.2 else 0)).sum

/-- `AdaptiveBudgetManager._calculate_question_complexity`
(`adaptive_budget_manager.py:199`): the summed indicator weights, scaled by
1.2 when more than one question word is present, divided by 5, capped at 1. -/
def calculate_question_complexity (text : List Char) : ℚ :=
  min 1
    ((if 1 < (QUESTION_WORDS.filter (fun w => 0 < countSubstr text w.data)).length
      then question_score text * (6/5) else question_score text) / 5)

/-- The weighted `complexity_score` accumulated by `analyze_complexity`
before the mode adjustment and clamping: length × 0.25 + keywords × 0.30 +
code × 0.25 + questions × 0.20, on the stripped, lowered text (code
detection runs on the original-case input). -/
noncomputable def complexity_score (user_input : String) : ℝ :=
  ((calculate_length_complexity (pyLower (pyStrip user_input.data)).length : ℚ) : ℝ) * (1/4) +
  calculate_keyword_complexity (pyLower (pyStrip user_input.data))
    (pyLower (pyStrip user_input.data)).length * (3/10) +
  ((calculate_code_complexity user_input.data : ℚ) : ℝ) * (1/4) +
  ((calculate_question_complexity (pyLower (pyStrip user_input.data)) : ℚ) : ℝ) * (1/5)

open Classical in
/-- `AdaptiveBudgetManager.analyze_complexity`
(`adaptive_budget_manager.py:99`): 0.1 for empty (or all-whitespace) input;
otherwise the weighted score, times 1.2 in tools mode, clamped to [0, 1]. -/
noncomputable def analyze_complexity (user_input : String) (mode : String) : ℝ :=
  if user_input = "" then 1/10
  else if (pyLower (pyStrip user_input.data)).length = 0 then 1/10
  else max 0 (min 1
    (if mode = "tools" then complexity_score user_input * (6/5)
     else complexity_score user_input))

/-- `InteractionMode` (`adaptive_budget_manager.py:14`). -/
inductive InteractionMode
  | tools
  | chat
deriving DecidableEq

/-- `InteractionMode(mode.lower())` with the `ValueError → CHAT` fallback. -/
def interactionModeOf (mode : String) : InteractionMode :=
  if pyLower mode.data = "tools".data then .tools else .chat

/-- `base_budgets[mode]['system_prompt']` (`adaptive_budget_manager.py:62`). -/
def base_system_prompt : InteractionMode → ℚ
  | .tools => 3
  | .chat => 3/5

/-- `base_budgets[mode]['tool_definitions']`. -/
def base_tool_definitions : InteractionMode → ℚ
  | .tools => 6
  | .chat => 0

/-- `base_budgets[mode]['safety_margin']`. -/
def base_safety_margin : InteractionMode → ℚ
  | _ => 5

/-- `base_budgets[mode]['reserved']`. -/
def base_reserved : InteractionMode → ℚ
  | .tools => 0
  | .chat => 2/5

/-- `adaptive_ranges[mode]['response_min']` (`adaptive_budget_manager.py:82`). -/
def response_min : InteractionMode → ℚ
  | .tools => 16
  | .chat => 12

/-- `adaptive_ranges[mode]['response_max']`. -/
def response_max : InteractionMode → ℚ
  | .tools => 26
  | .chat => 22

/-- `adaptive_ranges[mode]['memory_min']`. -/
def memory_min : InteractionMode → ℚ
  | .tools => 45
  | .chat => 38

/-- `adaptive_ranges[mode]['memory_max']`. -/
def memory_max : InteractionMode → ℚ
  | .tools => 55
  | .chat => 50

/-- `adaptive_response` of `calculate_adaptive_budgets`
(`adaptive_budget_manager.py:244`): `response_min + complexity * response_range`. -/
noncomputable def adaptive_response_pct (im : InteractionMode) (c : ℝ) : ℝ :=
  ((response_min im : ℚ) : ℝ) + c * (((response_max im : ℚ) : ℝ) - ((response_min im : ℚ) : ℝ))

/-- `adaptive_memory` of `calculate_adaptive_budgets`
(`adaptive_budget_manager.py:248`): `memory_max - memory_reduction` with
`memory_reduction = complexity * (memory_range / (response_range /
(adaptive_response - response_min)))`, exactly as written in the source. -/
noncomputable def adaptive_memory_pct (im : InteractionMode) (c : ℝ) : ℝ :=
  ((memory_max im : ℚ) : ℝ) - c * ((((memory_max im : ℚ) : ℝ) - ((memory_min im : ℚ) : ℝ)) /
    ((((response_max im : ℚ) : ℝ) - ((response_min im : ℚ) : ℝ)) /
      (adaptive_response_pct im c - ((response_min im : ℚ) : ℝ))))

/-- The memory percentage as the specification claim states it: linear in the
complexity score, `memory_max - complexity * (memory_max - memory_min)`. -/
noncomputable def adaptive_memory_pct_linear (im : InteractionMode) (c : ℝ) : ℝ :=
  ((memory_max im : ℚ) : ℝ) - c * (((memory_max im : ℚ) : ℝ) - ((memory_min im : ℚ) : ℝ))

/-- The absolute token budgets returned by `calculate_adaptive_budgets`. -/
structure Budgets where
  system_prompt : ℤ
  tool_definitions : ℤ
  conversation_memory : ℤ
  response_generation : ℤ
  safety_margin : ℤ
  reserved : ℤ
deriving DecidableEq

/-- Total of all buckets of an allocation. -/
def sumBudgets (b : Budgets) : ℤ :=
  b.system_prompt + b.tool_definitions + b.conversation_memory +
    b.response_generation + b.safety_margin + b.reserved

/-- The `absolute_budgets` dict as first computed by
`calculate_adaptive_budgets` (`adaptive_budget_manager.py:259`), before the
minimum-memory validation: `int(context_window * (percentage / 100.0))` per
bucket. -/
noncomputable def initial_budgets (W : ℤ) (mode q : String) : Budgets :=
  let im := interactionModeOf mode
  let c := analyze_complexity q mode
  ⟨pyIntR ((W : ℝ) * (((base_system_prompt im : ℚ) : ℝ) / 100)),
   pyIntR ((W : ℝ) * (((base_tool_definitions im : ℚ) : ℝ) / 100)),
   pyIntR ((W : ℝ) * (adaptive_memory_pct im c / 100)),
   pyIntR ((W : ℝ) * (adaptive_response_pct im c / 100)),
   pyIntR ((W : ℝ) * (((base_safety_margin im : ℚ) : ℝ) / 100)),
   pyIntR ((W : ℝ) * (((base_reserved im : ℚ) : ℝ) / 100))⟩

open Classical in
/-- `AdaptiveBudgetManager.calculate_adaptive_budgets`
(`adaptive_budget_manager.py:216`).  Python float division by zero raises
`ZeroDivisionError`; the two divisions in `memory_reduction` are therefore
guarded and the result is `none` exactly when Python would raise. -/
noncomputable def calculate_adaptive_budgets (W : ℤ) (mode q : String) (m : ℤ) :
    Option Budgets :=
  let im := interactionModeOf mode
  let c := analyze_complexity q mode
  if adaptive_response_pct im c - ((response_min im : ℚ) : ℝ) = 0 then none
  else if (((response_max im : ℚ) : ℝ) - ((response_min im : ℚ) : ℝ)) /
      (adaptive_response_pct im c - ((response_min im : ℚ) : ℝ)) = 0 then none
  else
    let b0 := initial_budgets W mode q
    if m ≤ b0.conversation_memory then some b0
    else
      let shortage := m - b0.conversation_memory
      if shortage ≤ b0.reserved then
        some ⟨b0.system_prompt, b0.tool_definitions, m, b0.response_generation,
              b0.safety_margin, b0.reserved - shortage⟩
      else
        some ⟨b0.system_prompt, b0.tool_definitions, m,
              max (pyIntR ((W : ℝ) * (10 / 100)))
                (b0.response_generation - (shortage - b0.reserved)),
              b0.safety_margin,
              max (pyIntR ((W : ℝ) * (2 / 100))) 0⟩

/-- Concrete conversation for the trimming scenario: five exchanges whose
stored token counts are 250 + 250 = 500 each. -/
def convC4 : List PyDict := List.replicate 5 (mkExchange ⟨some 250, none⟩ ⟨some 250, none⟩)

/-- Concrete exchange whose estimated size (5 + 5 = 10) exceeds a budget of 3. -/
def exC5 : PyDict := mkExchange ⟨some 5, none⟩ ⟨some 5, none⟩

/-- The 300-character string of `'a'`s from the token-estimation scenario. -/
def aaa300 : String := String.mk (List.replicate 300 'a')

/-- A stored conversation of one exchange whose persisted token counts (1 and
1) badly under-report its actual content (300 characters and empty). -/
def historyC7 : List PyDict := [mkExchange ⟨some 1, some aaa300⟩ ⟨some 1, some ""⟩]

/-- The query "`optimize` repeated `n` times" (space separated). -/
def query_opt (n : ℕ) : String := String.mk ((List.replicate n "optimize ".data).flatten)

/-- The text `analyze_complexity` derives from `query_opt n` (stripped, then
lowered), which it hands to `_calculate_keyword_complexity`. -/
def text_opt (n : ℕ) : List Char := pyLower (pyStrip (query_opt n).data)

/-- The keyword sub-score as `analyze_complexity` computes it for a query:
`_calculate_keyword_complexity(text, len(text))` on the stripped, lowered
text. -/
noncomputable def kwScoreOf (q : String) : ℝ :=
  calculate_keyword_complexity (pyLower (pyStrip q.data)) (pyLower (pyStrip q.data)).length

/-! ## Lemmas about the trimming loops -/

lemma trimGo_eq (b : ℤ) (rl : List PyDict) : ∀ (cur : ℤ) (acc : List PyDict),
    trimGo b rl cur acc = (specTake b rl cur).reverse ++ acc := by
  induction rl with
  | nil => intro cur acc; simp [trimGo, specTake]
  | cons e rest ih =>
    intro cur acc
    simp only [trimGo, specTake]
    split
    · rw [ih]; simp
    · simp

lemma exchangesTokenTotal_cons (e : PyDict) (l : List PyDict) :
    exchangesTokenTotal (e :: l) = estimate_exchange_tokens e + exchangesTokenTotal l := by
  simp [exchangesTokenTotal]

lemma exchangesTokenTotal_reverse (l : List PyDict) :
    exchangesTokenTotal l.reverse = exchangesTokenTotal l := by
  unfold exchangesTokenTotal
  rw [List.map_reverse, List.sum_reverse]

lemma specTake_sum (b : ℤ) (rl : List PyDict) : ∀ cur : ℤ, cur ≤ b →
    cur + exchangesTokenTotal (specTake b rl cur) ≤ b := by
  induction rl with
  | nil => intro cur h; simpa [specTake, exchangesTokenTotal] using h
  | cons e rest ih =>
    intro cur h
    simp only [specTake]
    split
    · rename_i hc
      have := ih (cur + estimate_exchange_tokens e) hc
      rw [exchangesTokenTotal_cons]
      omega
    · simpa [exchangesTokenTotal] using h

lemma specTake_append (b : ℤ) (rl : List PyDict) : ∀ cur : ℤ,
    ∃ rest, specTake b rl cur ++ rest = rl := by
  induction rl with
  | nil => intro cur; exact ⟨[], rfl⟩
  | cons e rest ih =>
    intro cur
    simp only [specTake]
    split
    · obtain ⟨r, hr⟩ := ih (cur + estimate_exchange_tokens e)
      exact ⟨r, by simp [hr]⟩
    · exact ⟨e :: rest, rfl⟩

/-! ## Claim theorems: trimming and token estimation -/

/-- C4: for a non-empty conversation and positive budget,
`_trim_conversation_to_budget` returns exactly the greedy recency-biased
suffix described by the specification, in original order, and its token
total fits the budget. -/
theorem claim_C4 (conv : List PyDict) (b : ℤ) (hne : conv ≠ []) (hb : 0 < b) :
    trim_conversation_to_budget conv b = trimToBudgetSpec conv b ∧
    (∃ t, t ++ trim_conversation_to_budget conv b = conv) ∧
    exchangesTokenTotal (trim_conversation_to_budget conv b) ≤ b := by
  have hguard : ¬(conv = [] ∨ b ≤ 0) := by
    push_neg
    exact ⟨hne, by omega⟩
  have heq : trim_conversation_to_budget conv b = trimToBudgetSpec conv b := by
    unfold trim_conversation_to_budget trimToBudgetSpec
    rw [if_neg hguard, trimGo_eq]
    simp
  refine ⟨heq, ?_, ?_⟩
  · obtain ⟨rest, hr⟩ := specTake_append b conv.reverse 0
    refine ⟨rest.reverse, ?_⟩
    rw [heq]
    unfold trimToBudgetSpec
    have := congrArg List.reverse hr
    simpa using this
  · rw [heq]
    unfold trimToBudgetSpec
    have := specTake_sum b conv.reverse 0 (by omega)
    rw [exchangesTokenTotal_reverse]
    omega

/-- C4 witness: five exchanges of 500 tokens each, budget 1200. -/
theorem claim_C4_witness :
    convC4 ≠ [] ∧ (0 : ℤ) < 1200 ∧
    (trim_conversation_to_budget convC4 1200 = trimToBudgetSpec convC4 1200 ∧
     (∃ t, t ++ trim_conversation_to_budget convC4 1200 = convC4) ∧
     exchangesTokenTotal (trim_conversation_to_budget convC4 1200) ≤ 1200) :=
  ⟨by decide, by decide, claim_C4 convC4 1200 (by decide) (by decide)⟩

/-- C5 counterexample: a non-empty conversation and positive budget where the
single most recent exchange alone exceeds the budget — the code returns `[]`,
dropping the newest exchange. -/
theorem claim_C5_counterexample :
    ([exC5] : List PyDict) ≠ [] ∧ (0 : ℤ) < 3 ∧
    exC5 ∉ trim_conversation_to_budget [exC5] 3 := by decide

/-- C5 (amended): the trim never drops the most recent exchange *provided its
own token estimate fits the budget*. -/
theorem claim_C5 (conv : List PyDict) (e : PyDict) (b : ℤ) (hb : 0 < b)
    (he : estimate_exchange_tokens e ≤ b) :
    e ∈ trim_conversation_to_budget (conv ++ [e]) b := by
  have hguard : ¬(conv ++ [e] = [] ∨ b ≤ 0) := by
    push_neg
    exact ⟨by simp, by omega⟩
  unfold trim_conversation_to_budget
  rw [if_neg hguard]
  have hrev : (conv ++ [e]).reverse = e :: conv.reverse := by simp
  rw [hrev]
  simp only [trimGo]
  rw [if_pos (by simpa using he), trimGo_eq]
  exact List.mem_append_right _ (List.mem_singleton.mpr rfl)

/-- C5 witness: amended claim at a concrete exchange that fits its budget. -/
theorem claim_C5_witness :
    (0 : ℤ) < 20 ∧
    estimate_exchange_tokens (mkExchange ⟨some 4, none⟩ ⟨some 6, none⟩) ≤ 20 ∧
    mkExchange ⟨some 4, none⟩ ⟨some 6, none⟩ ∈
      trim_conversation_to_budget ([] ++ [mkExchange ⟨some 4, none⟩ ⟨some 6, none⟩]) 20 :=
  ⟨by decide, by decide, claim_C5 [] _ 20 (by decide) (by decide)⟩

set_option maxRecDepth 40000 in
/-- Evaluation of the token estimator on the 300-`'a'` string: the whole
string is one word longer than 20 characters, so the long-word penalty
`(300 - 20) / 10 = 28` applies on top of the base `max(1, 300/3) = 100`,
and `int((100 + 28) * 1.2) = 153`. -/
lemma estimate_tokens_aaa300 : estimate_tokens aaa300 = 153 := by
  have hne : aaa300 ≠ "" := by decide
  have h1 : aaa300.data.length = 300 := by decide
  have h2 : (aaa300.data.filter isEmojiChar).length = 0 := by decide
  have h3 : (aaa300.data.filter isSymbolChar).length = 0 := by decide
  have h4 : (aaa300.data.filter (fun c => 127 < c.toNat)).length = 0 := by decide
  have h5 : (((splitWs aaa300.data).filter (fun w => 20 < w.length)).map
      (fun w => (w.length : ℤ) - 20)).sum = 280 := by decide
  simp only [estimate_tokens, estimateTokensWith, if_neg hne, h1, h2, h3, h4, h5]
  norm_num [pyIntQ]

/-- C6 counterexample: `estimate_tokens` of 300 `'a'`s is not 120 — the
300-character run is a single word, so the long-word penalty applies. -/
theorem claim_C6_counterexample :
    ¬(estimate_tokens "" = 0 ∧ estimate_tokens aaa300 = 120) := by
  rw [estimate_tokens_aaa300]
  simp

/-- C6 (amended): `estimate_tokens "" = 0`, and on 300 `'a'`s the base 100
tokens gain a long-word penalty of (300−20)/10 = 28, so the result is
`int(128 * 1.2) = 153`. -/
theorem claim_C6 : estimate_tokens "" = 0 ∧ estimate_tokens aaa300 = 153 :=
  ⟨by simp [estimate_tokens, estimateTokensWith], estimate_tokens_aaa300⟩

/-! ## Claim theorem: per-append trimming in `memai.py` -/

lemma trimW_props (contextWindow : ℤ) : ∀ l : List MExchange, l ≠ [] →
    trim_to_context_window l contextWindow ≠ [] ∧
    (∃ t, t ++ trim_to_context_window l contextWindow = l) ∧
    (trim_to_context_window l contextWindow).getLast? = l.getLast? ∧
    ((trim_to_context_window l contextWindow).length = 1 ∨
      (te_estimate_conversation_tokens (trim_to_context_window l contextWindow) : ℚ) ≤
        (contextWindow : ℚ) * (4 / 5)) := by
  intro l
  induction l with
  | nil => intro h; exact absurd rfl h
  | cons a rest ih =>
    intro _
    cases rest with
    | nil => refine ⟨by simp [trim_to_context_window], ⟨[], rfl⟩, rfl, Or.inl rfl⟩
    | cons b rest' =>
      by_cases hc : (te_estimate_conversation_tokens (a :: b :: rest') : ℚ) ≤
          (contextWindow : ℚ) * (4 / 5)
      · rw [show trim_to_context_window (a :: b :: rest') contextWindow = a :: b :: rest' by
          simp [trim_to_context_window, hc]]
        exact ⟨by simp, ⟨[], rfl⟩, rfl, Or.inr hc⟩
      · rw [show trim_to_context_window (a :: b :: rest') contextWindow =
            trim_to_context_window (b :: rest') contextWindow by
          simp [trim_to_context_window, hc]]
        obtain ⟨h1, ⟨t, ht⟩, h3, h4⟩ := ih (by simp)
        exact ⟨h1, ⟨a :: t, by simp [ht]⟩, by rw [h3, List.getLast?_cons_cons], h4⟩

/-- C8: after every append in `memai.py`, the stored conversation is
non-empty, is a suffix of the appended list (only a contiguous prefix of
oldest exchanges is removed), still ends with the just-appended exchange,
and either exactly one exchange remains or the estimated total fits within
80% of the context window. -/
theorem claim_C8 (exchanges : List MExchange) (e : MExchange) (W : ℤ) :
    mm_add_exchange exchanges e W ≠ [] ∧
    ((mm_add_exchange exchanges e W).length = 1 ∨
      (te_estimate_conversation_tokens (mm_add_exchange exchanges e W) : ℚ) ≤
        (W : ℚ) * (4 / 5)) ∧
    (∃ t, t ++ mm_add_exchange exchanges e W = exchanges ++ [e]) ∧
    (mm_add_exchange exchanges e W).getLast? = some e := by
  obtain ⟨h1, h2, h3, h4⟩ := trimW_props W (exchanges ++ [e]) (by simp)
  unfold mm_add_exchange
  refine ⟨h1, h4, h2, ?_⟩
  rw [h3]
  simp

/-! ## Bounds on the complexity analyser -/

lemma calculate_length_complexity_ge (n : ℕ) : 1/10 ≤ calculate_length_complexity n := by
  unfold calculate_length_complexity
  split_ifs with h1 h2 h3
  · norm_num
  · norm_num
  · norm_num
  · rw [le_min_iff]
    refine ⟨by norm_num, ?_⟩
    have hn : (300 : ℚ) ≤ (n : ℚ) := by
      exact_mod_cast (by omega : 300 ≤ n)
    have h0 : 0 ≤ (((n : ℚ) - 300) / 1000) * (3/10) :=
      mul_nonneg (div_nonneg (by linarith) (by norm_num)) (by norm_num)
    linarith

lemma keyword_weights_nonneg (text : List Char) : 0 ≤ keyword_weights text := by
  unfold keyword_weights
  apply List.sum_nonneg
  intro x hx
  simp only [List.mem_map] at hx
  obtain ⟨p, hp, rfl⟩ := hx
  split
  · exact le_refl 0
  · apply mul_nonneg
    · unfold keywordPairs at hp
      simp only [List.mem_map] at hp
      obtain ⟨kw, hkw, rfl⟩ := hp
      have : (0 : ℚ) ≤ kw.2 := by
        fin_cases hkw <;> norm_num
      exact_mod_cast this
    · exact Real.sqrt_nonneg _

lemma calculate_keyword_complexity_nonneg (text : List Char) (n : ℕ) :
    0 ≤ calculate_keyword_complexity text n := by
  unfold calculate_keyword_complexity
  split
  · exact le_refl 0
  · apply le_min (by norm_num)
    apply div_nonneg _ (by norm_num)
    split
    · exact mul_nonneg (keyword_weights_nonneg _) (by norm_num)
    · exact keyword_weights_nonneg _

lemma question_score_nonneg (text : List Char) : 0 ≤ question_score text := by
  unfold question_score
  apply List.sum_nonneg
  intro x hx
  simp only [List.mem_map] at hx
  obtain ⟨p, hp, rfl⟩ := hx
  split
  · fin_cases hp <;> norm_num
  · exact le_refl 0

lemma calculate_code_complexity_nonneg (s : List Char) :
    0 ≤ calculate_code_complexity s := by
  unfold calculate_code_complexity
  apply le_min (by norm_num)
  positivity

lemma calculate_question_complexity_nonneg (text : List Char) :
    0 ≤ calculate_question_complexity text := by
  unfold calculate_question_complexity
  have hs := question_score_nonneg text
  apply le_min (by norm_num)
  apply div_nonneg _ (by norm_num)
  split
  · exact mul_nonneg hs (by norm_num)
  · exact hs

lemma complexity_score_ge (q : String) : 1/40 ≤ complexity_score q := by
  have hls := calculate_length_complexity_ge (pyLower (pyStrip q.data)).length
  have hkw := calculate_keyword_complexity_nonneg (pyLower (pyStrip q.data))
    (pyLower (pyStrip q.data)).length
  have hcc := calculate_code_complexity_nonneg q.data
  have hqc := calculate_question_complexity_nonneg (pyLower (pyStrip q.data))
  have hlsR : ((1/10 : ℚ) : ℝ) ≤
      ((calculate_length_complexity (pyLower (pyStrip q.data)).length : ℚ) : ℝ) :=
    Rat.cast_le.mpr hls
  have hccR : ((0 : ℚ) : ℝ) ≤ ((calculate_code_complexity q.data : ℚ) : ℝ) :=
    Rat.cast_le.mpr hcc
  have hqcR : ((0 : ℚ) : ℝ) ≤
      ((calculate_question_complexity (pyLower (pyStrip q.data)) : ℚ) : ℝ) :=
    Rat.cast_le.mpr hqc
  push_cast at hlsR hccR hqcR
  unfold complexity_score
  nlinarith

lemma analyze_complexity_pos (q mode : String) : 0 < analyze_complexity q mode := by
  unfold analyze_complexity
  split
  · norm_num
  · split
    · norm_num
    · have hscore := complexity_score_ge q
      apply lt_max_of_lt_right
      apply lt_min (by norm_num)
      split
      · nlinarith
      · nlinarith

lemma analyze_complexity_nonneg (q mode : String) : 0 ≤ analyze_complexity q mode :=
  le_of_lt (analyze_complexity_pos q mode)

lemma analyze_complexity_le_one (q mode : String) : analyze_complexity q mode ≤ 1 := by
  unfold analyze_complexity
  split
  · norm_num
  · split
    · norm_num
    · exact max_le (by norm_num) (min_le_left _ _)

/-! ## Arithmetic facts about the adaptive budget formulas -/

lemma response_range_eq (im : InteractionMode) :
    ((response_max im : ℚ) : ℝ) - ((response_min im : ℚ) : ℝ) = 10 := by
  cases im <;> norm_num [response_max, response_min]

lemma response_min_ge (im : InteractionMode) : (12 : ℝ) ≤ ((response_min im : ℚ) : ℝ) := by
  cases im <;> norm_num [response_min]

lemma arp_sub_eq (im : InteractionMode) (c : ℝ) :
    adaptive_response_pct im c - ((response_min im : ℚ) : ℝ) = c * 10 := by
  unfold adaptive_response_pct
  have h := response_range_eq im
  linear_combination c * h

lemma arp_ge_twelve (im : InteractionMode) {c : ℝ} (hc : 0 ≤ c) :
    12 ≤ adaptive_response_pct im c := by
  unfold adaptive_response_pct
  have h1 := response_range_eq im
  have h2 := response_min_ge im
  nlinarith

lemma pyIntR_nonneg {x : ℝ} (h : 0 ≤ x) : 0 ≤ pyIntR x := by
  unfold pyIntR
  rw [if_neg (not_lt.mpr h)]
  exact Int.floor_nonneg.mpr h

lemma pyIntR_mono {x y : ℝ} (hx : 0 ≤ x) (hxy : x ≤ y) : pyIntR x ≤ pyIntR y := by
  unfold pyIntR
  rw [if_neg (not_lt.mpr hx), if_neg (not_lt.mpr (le_trans hx hxy))]
  exact Int.floor_le_floor hxy

lemma analyze_empty (mode : String) : analyze_complexity "" mode = 1/10 := by
  unfold analyze_complexity
  rw [if_pos rfl]

/-! ## Claim theorems: adaptive budgets -/

/-- C9: `calculate_adaptive_budgets` always returns an allocation (never
raises): the divisor `adaptive_response - response_min` is non-zero because
`analyze_complexity` never returns 0. -/
theorem claim_C9 (W m : ℤ) (mode q : String) (hW : 0 < W) (hm : 0 ≤ m) :
    (∃ b, calculate_adaptive_budgets W mode q m = some b) ∧
      0 < analyze_complexity q mode := by
  have hc := analyze_complexity_pos q mode
  refine ⟨?_, hc⟩
  simp only [calculate_adaptive_budgets]
  have h1 : adaptive_response_pct (interactionModeOf mode) (analyze_complexity q mode) -
      ((response_min (interactionModeOf mode) : ℚ) : ℝ) ≠ 0 := by
    rw [arp_sub_eq]
    exact mul_ne_zero (ne_of_gt hc) (by norm_num)
  rw [if_neg h1]
  have h2 : (((response_max (interactionModeOf mode) : ℚ) : ℝ) -
        ((response_min (interactionModeOf mode) : ℚ) : ℝ)) /
      (adaptive_response_pct (interactionModeOf mode) (analyze_complexity q mode) -
        ((response_min (interactionModeOf mode) : ℚ) : ℝ)) ≠ 0 := by
    rw [response_range_eq, arp_sub_eq]
    exact div_ne_zero (by norm_num) (mul_ne_zero (ne_of_gt hc) (by norm_num))
  rw [if_neg h2]
  split
  · exact ⟨_, rfl⟩
  · split
    · exact ⟨_, rfl⟩
    · exact ⟨_, rfl⟩

/-- C9 witness. -/
theorem claim_C9_witness :
    (0 : ℤ) < 32768 ∧ (0 : ℤ) ≤ 0 ∧
    ((∃ b, calculate_adaptive_budgets 32768 "chat" "hello" 0 = some b) ∧
      0 < analyze_complexity "hello" "chat") :=
  ⟨by norm_num, le_refl 0, claim_C9 32768 0 "chat" "hello" (by norm_num) (le_refl 0)⟩

/-- C2 (amended): the memory percentage computed by
`calculate_adaptive_budgets` is *quadratic*, not linear, in the complexity
score: the division by the derived ratio collapses to
`memory_max - complexity² * (memory_max - memory_min)`. -/
theorem claim_C2 (q mode : String) :
    adaptive_memory_pct (interactionModeOf mode) (analyze_complexity q mode) =
      ((memory_max (interactionModeOf mode) : ℚ) : ℝ) -
        analyze_complexity q mode ^ 2 *
          (((memory_max (interactionModeOf mode) : ℚ) : ℝ) -
            ((memory_min (interactionModeOf mode) : ℚ) : ℝ)) := by
  have hcne : analyze_complexity q mode ≠ 0 := ne_of_gt (analyze_complexity_pos q mode)
  unfold adaptive_memory_pct
  rw [arp_sub_eq, response_range_eq]
  field_simp
  ring

/-- C2 counterexample: at the empty query in chat mode the complexity is 0.1
and the computed memory percentage is 50 − 0.12 = 49.88, while the claimed
linear formula gives 50 − 1.2 = 48.8. -/
theorem claim_C2_counterexample :
    adaptive_memory_pct (interactionModeOf "chat") (analyze_complexity "" "chat") ≠
      adaptive_memory_pct_linear (interactionModeOf "chat") (analyze_complexity "" "chat") := by
  have him : interactionModeOf "chat" = InteractionMode.chat := by decide
  rw [him, analyze_empty]
  unfold adaptive_memory_pct adaptive_memory_pct_linear adaptive_response_pct
  norm_num [memory_max, memory_min, response_max, response_min]

lemma initial_rg_ge (W : ℤ) (mode q : String) (hW : 0 ≤ W) :
    pyIntR ((W : ℝ) * (10 / 100)) ≤ (initial_budgets W mode q).response_generation := by
  have hWR : (0 : ℝ) ≤ (W : ℝ) := by exact_mod_cast hW
  unfold initial_budgets
  simp only
  apply pyIntR_mono (by positivity)
  have harp := arp_ge_twelve (interactionModeOf mode) (analyze_complexity_nonneg q mode)
  have : (10 : ℝ) / 100 ≤
      adaptive_response_pct (interactionModeOf mode) (analyze_complexity q mode) / 100 := by
    linarith
  exact mul_le_mul_of_nonneg_left this hWR

/-- C1: whenever `minimumMemoryTokens` exceeds the initially computed
conversation-memory bucket, the returned allocation has
`conversation_memory` equal to exactly that minimum, a non-negative
`reserved`, and `response_generation` at least `int(0.10 * contextWindow)`. -/
theorem claim_C1 (W m : ℤ) (mode q : String) (hW : 0 < W) (hmW : m ≤ W) (b : Budgets)
    (hb : calculate_adaptive_budgets W mode q m = some b)
    (hover : (initial_budgets W mode q).conversation_memory < m) :
    b.conversation_memory = m ∧ 0 ≤ b.reserved ∧
      pyIntR ((W : ℝ) * (10 / 100)) ≤ b.response_generation := by
  simp only [calculate_adaptive_budgets] at hb
  split at hb
  · exact absurd hb (by simp)
  · split at hb
    · exact absurd hb (by simp)
    · split at hb
      · rename_i hle
        omega
      · split at hb
        · rename_i hgt hshort
          cases hb
          refine ⟨rfl, ?_, ?_⟩
          · simp only
            omega
          · exact initial_rg_ge W mode q (le_of_lt hW)
        · cases hb
          refine ⟨rfl, le_max_right _ _, le_max_left _ _⟩

/-! ## Concrete evaluations of the allocator (empty query, chat mode) -/

lemma initial_32768 :
    initial_budgets 32768 "chat" "" = ⟨196, 0, 16344, 4259, 1638, 131⟩ := by
  have him : interactionModeOf "chat" = InteractionMode.chat := by decide
  simp only [initial_budgets, him, analyze_empty]
  simp only [pyIntR, adaptive_memory_pct, adaptive_response_pct, Budgets.mk.injEq,
    memory_max, memory_min, response_max, response_min, base_system_prompt,
    base_tool_definitions, base_safety_margin, base_reserved]
  norm_num

lemma calc_32768 :
    calculate_adaptive_budgets 32768 "chat" "" 17000 =
      some ⟨196, 0, 17000, 3734, 1638, 655⟩ := by
  have him : interactionModeOf "chat" = InteractionMode.chat := by decide
  simp only [calculate_adaptive_budgets, him, analyze_empty, initial_32768]
  rw [if_neg (by norm_num [adaptive_response_pct, response_min, response_max]),
      if_neg (by norm_num [adaptive_response_pct, response_min, response_max])]
  norm_num [pyIntR]

lemma initial_64 :
    initial_budgets 64 "chat" "" = ⟨0, 0, 31, 8, 3, 0⟩ := by
  have him : interactionModeOf "chat" = InteractionMode.chat := by decide
  simp only [initial_budgets, him, analyze_empty]
  simp only [pyIntR, adaptive_memory_pct, adaptive_response_pct, Budgets.mk.injEq,
    memory_max, memory_min, response_max, response_min, base_system_prompt,
    base_tool_definitions, base_safety_margin, base_reserved]
  norm_num

lemma calc_64 :
    calculate_adaptive_budgets 64 "chat" "" 0 = some ⟨0, 0, 31, 8, 3, 0⟩ := by
  have him : interactionModeOf "chat" = InteractionMode.chat := by decide
  simp only [calculate_adaptive_budgets, him, analyze_empty, initial_64]
  rw [if_neg (by norm_num [adaptive_response_pct, response_min, response_max]),
      if_neg (by norm_num [adaptive_response_pct, response_min, response_max])]
  norm_num

/-- C1 witness: window 32768, chat mode, empty query, minimum memory 17000
(the initial conversation-memory bucket is 16344). -/
theorem claim_C1_witness :
    (0 : ℤ) < 32768 ∧ (17000 : ℤ) ≤ 32768 ∧
    (initial_budgets 32768 "chat" "").conversation_memory < 17000 ∧
    ((Budgets.mk 196 0 17000 3734 1638 655).conversation_memory = 17000 ∧
     0 ≤ (Budgets.mk 196 0 17000 3734 1638 655).reserved ∧
     pyIntR ((32768 : ℝ) * (10 / 100)) ≤
       (Budgets.mk 196 0 17000 3734 1638 655).response_generation) :=
  ⟨by norm_num, by norm_num, by rw [initial_32768]; norm_num,
   claim_C1 32768 17000 "chat" "" (by norm_num) (by norm_num) _ calc_32768
     (by rw [initial_32768]; norm_num)⟩

/-- C10: when the minimum-memory shortfall exceeds the reserved bucket,
`reserved` is set to exactly `int(0.02 * contextWindow)` regardless of its
previous value; at window 32768 in chat mode (base reserved 0.4% = 131
tokens) this *raises* reserved to 655, and the reclaim step increases the
total of all buckets (22568 before, 23223 after). -/
theorem claim_C10 (W m : ℤ) (mode q : String) (hW : 0 ≤ W) (b : Budgets)
    (hb : calculate_adaptive_budgets W mode q m = some b)
    (h1 : (initial_budgets W mode q).conversation_memory < m)
    (h2 : (initial_budgets W mode q).reserved <
      m - (initial_budgets W mode q).conversation_memory) :
    b.reserved = pyIntR ((W : ℝ) * (2 / 100)) ∧
    ((initial_budgets 32768 "chat" "").reserved = 131 ∧
     calculate_adaptive_budgets 32768 "chat" "" 17000 =
       some ⟨196, 0, 17000, 3734, 1638, 655⟩ ∧
     (131 : ℤ) < 655 ∧
     sumBudgets (initial_budgets 32768 "chat" "") = 22568 ∧
     sumBudgets ⟨196, 0, 17000, 3734, 1638, 655⟩ = 23223 ∧ (22568 : ℤ) < 23223) := by
  constructor
  · have hWR : (0 : ℝ) ≤ (W : ℝ) := by exact_mod_cast hW
    simp only [calculate_adaptive_budgets] at hb
    split at hb
    · exact absurd hb (by simp)
    · split at hb
      · exact absurd hb (by simp)
      · split at hb
        · rename_i hle
          omega
        · split at hb
          · rename_i hgt hshort
            omega
          · cases hb
            simp only
            exact max_eq_left (pyIntR_nonneg (by positivity))
  · refine ⟨by rw [initial_32768], calc_32768, by norm_num, ?_, by norm_num [sumBudgets], by norm_num⟩
    rw [initial_32768]
    norm_num [sumBudgets]

/-- C10 witness. -/
theorem claim_C10_witness :
    (0 : ℤ) ≤ 32768 ∧
    (initial_budgets 32768 "chat" "").conversation_memory < 17000 ∧
    (initial_budgets 32768 "chat" "").reserved <
      17000 - (initial_budgets 32768 "chat" "").conversation_memory ∧
    (Budgets.mk 196 0 17000 3734 1638 655).reserved = pyIntR ((32768 : ℝ) * (2 / 100)) :=
  ⟨by norm_num, by rw [initial_32768]; norm_num, by rw [initial_32768]; norm_num,
   (claim_C10 32768 17000 "chat" "" (by norm_num) _ calc_32768
     (by rw [initial_32768]; norm_num) (by rw [initial_32768]; norm_num)).1⟩

/-! ## Claim theorem: the step-4 re-trim of `prepare_context_for_model` -/

set_option maxRecDepth 40000 in
/-- C7 (evaluating the code at the failing input): with window 64, chat
mode, empty query, the computed conversation-memory bucket is 31; a stored
exchange whose persisted token counts (1 + 1) under-report its 300-character
content passes the first trim, the built message re-estimates to 153 > 31,
and the step-4 re-trim returns it unchanged — `_trim_conversation_to_budget`
reads the keys `user`/`assistant`, which a `{'role','content'}` message dict
does not have, so every message counts as 0 tokens.  The returned context
therefore does **not** fit the memory budget. -/
theorem claim_C7 :
    calculate_adaptive_budgets 64 "chat" "" 0 = some ⟨0, 0, 31, 8, 3, 0⟩ ∧
    prepare_context_messages historyC7 31 0 = [mkMessage "user" aaa300] ∧
    31 < estimate_conversation_tokens (prepare_context_messages historyC7 31 0) := by
  have hG : get_conversation_within_budget historyC7 31 0 = historyC7 := by decide
  have hB : build_context_messages historyC7 = [mkMessage "user" aaa300] := by decide
  have hT : trim_conversation_to_budget [mkMessage "user" aaa300] 31 =
      [mkMessage "user" aaa300] := by decide
  have hE : estimate_conversation_tokens [mkMessage "user" aaa300] = 153 := by
    simp [estimate_conversation_tokens, messageTokens, mkMessage, estimate_tokens_aaa300]
  have hP : prepare_context_messages historyC7 31 0 = [mkMessage "user" aaa300] := by
    unfold prepare_context_messages prepareStep4
    rw [hG, hB, hE, if_pos (by norm_num)]
    exact hT
  refine ⟨calc_64, hP, ?_⟩
  rw [hP, hE]
  norm_num

/-! ## Claim theorems: keyword anti-gaming -/

set_option maxRecDepth 100000 in
lemma kw_counts_100 :
    countSubstr (text_opt 100) "analyze".data = 0 ∧
    countSubstr (text_opt 100) "explain".data = 0 ∧
    countSubstr (text_opt 100) "compare".data = 0 ∧
    countSubstr (text_opt 100) "evaluate".data = 0 ∧
    countSubstr (text_opt 100) "implement".data = 0 ∧
    countSubstr (text_opt 100) "create".data = 0 ∧
    countSubstr (text_opt 100) "design".data = 0 ∧
    countSubstr (text_opt 100) "develop".data = 0 ∧
    countSubstr (text_opt 100) "optimize".data = 100 ∧
    countSubstr (text_opt 100) "debug".data = 0 ∧
    countSubstr (text_opt 100) "refactor".data = 0 ∧
    countSubstr (text_opt 100) "review".data = 0 ∧
    countSubstr (text_opt 100) "summarize".data = 0 ∧
    countSubstr (text_opt 100) "research".data = 0 ∧
    countSubstr (text_opt 100) "investigate".data = 0 := by decide

set_option maxRecDepth 100000 in
lemma kw_counts_2 :
    countSubstr (text_opt 2) "analyze".data = 0 ∧
    countSubstr (text_opt 2) "explain".data = 0 ∧
    countSubstr (text_opt 2) "compare".data = 0 ∧
    countSubstr (text_opt 2) "evaluate".data = 0 ∧
    countSubstr (text_opt 2) "implement".data = 0 ∧
    countSubstr (text_opt 2) "create".data = 0 ∧
    countSubstr (text_opt 2) "design".data = 0 ∧
    countSubstr (text_opt 2) "develop".data = 0 ∧
    countSubstr (text_opt 2) "optimize".data = 2 ∧
    countSubstr (text_opt 2) "debug".data = 0 ∧
    countSubstr (text_opt 2) "refactor".data = 0 ∧
    countSubstr (text_opt 2) "review".data = 0 ∧
    countSubstr (text_opt 2) "summarize".data = 0 ∧
    countSubstr (text_opt 2) "research".data = 0 ∧
    countSubstr (text_opt 2) "investigate".data = 0 := by decide

lemma sqrt_100 : Real.sqrt 100 = 10 := by
  rw [show (100 : ℝ) = 10 ^ 2 by norm_num]
  exact Real.sqrt_sq (by norm_num)

lemma kw_weights_100 : keyword_weights (text_opt 100) = 25 := by
  obtain ⟨h1, h2, h3, h4, h5, h6, h7, h8, h9, h10, h11, h12, h13, h14, h15⟩ := kw_counts_100
  unfold keyword_weights keywordPairs ANALYSIS_KEYWORDS
  simp only [List.map_cons, List.map_nil, List.sum_cons, List.sum_nil,
    h1, h2, h3, h4, h5, h6, h7, h8, h9, h10, h11, h12, h13, h14, h15]
  norm_num [sqrt_100]

lemma kw_weights_2 : keyword_weights (text_opt 2) = (5/2) * Real.sqrt 2 := by
  obtain ⟨h1, h2, h3, h4, h5, h6, h7, h8, h9, h10, h11, h12, h13, h14, h15⟩ := kw_counts_2
  unfold keyword_weights keywordPairs ANALYSIS_KEYWORDS
  simp only [List.map_cons, List.map_nil, List.sum_cons, List.sum_nil,
    h1, h2, h3, h4, h5, h6, h7, h8, h9, h10, h11, h12, h13, h14, h15]
  norm_num

lemma sqrt_two_bounds : 1 < Real.sqrt 2 ∧ Real.sqrt 2 < 2 := by
  constructor
  · nlinarith [Real.sq_sqrt (show (0:ℝ) ≤ 2 by norm_num), Real.sqrt_nonneg 2]
  · nlinarith [Real.sq_sqrt (show (0:ℝ) ≤ 2 by norm_num), Real.sqrt_nonneg 2]

set_option maxRecDepth 100000 in
lemma kwscore_100 : kwScoreOf (query_opt 100) = 1 := by
  unfold kwScoreOf
  rw [show pyLower (pyStrip (query_opt 100).data) = text_opt 100 from rfl]
  have hlen : (text_opt 100).length = 899 := by decide
  have hkc : keyword_count (text_opt 100) = 100 := by decide
  unfold calculate_keyword_complexity
  rw [if_neg (by rw [kw_weights_100]; norm_num)]
  rw [if_pos (by unfold keyword_density; rw [hkc, hlen]; norm_num)]
  rw [kw_weights_100]
  norm_num

set_option maxRecDepth 100000 in
lemma kwscore_2 : kwScoreOf (query_opt 2) = Real.sqrt 2 / 8 := by
  unfold kwScoreOf
  rw [show pyLower (pyStrip (query_opt 2).data) = text_opt 2 from rfl]
  have hlen : (text_opt 2).length = 17 := by decide
  have hkc : keyword_count (text_opt 2) = 2 := by decide
  have hs2 := sqrt_two_bounds
  unfold calculate_keyword_complexity
  rw [if_neg (by
    rw [kw_weights_2]
    have : (0:ℝ) < Real.sqrt 2 := by linarith [hs2.1]
    positivity)]
  rw [if_pos (by unfold keyword_density; rw [hkc, hlen]; norm_num)]
  rw [kw_weights_2]
  rw [show (5/2 : ℝ) * Real.sqrt 2 * (1/2) / 10 = Real.sqrt 2 / 8 by ring]
  exact min_eq_right (by nlinarith [hs2.2, Real.sqrt_nonneg 2])

/-- C3 counterexample: for "optimize" repeated 100 times versus twice, the
keyword sub-score is 1.0 (capped) versus √2/8 ≈ 0.177, so
`score(100) < 3 * score(2)` is **false** — the ratio is about 5.66. -/
theorem claim_C3_counterexample :
    ¬ (kwScoreOf (query_opt 100) < 3 * kwScoreOf (query_opt 2)) := by
  rw [kwscore_100, kwscore_2, not_lt]
  nlinarith [Real.sq_sqrt (show (0:ℝ) ≤ 2 by norm_num), Real.sqrt_nonneg 2]

/-- C3 (amended): the sub-linear scaling guarantee holds with factor 6
instead of 3: `score(100 repetitions) < 6 * score(2 repetitions)`
(1 < 6·√2/8 ≈ 1.06). -/
theorem claim_C3 : kwScoreOf (query_opt 100) < 6 * kwScoreOf (query_opt 2) := by
  rw [kwscore_100, kwscore_2]
  nlinarith [Real.sq_sqrt (show (0:ℝ) ≤ 2 by norm_num), Real.sqrt_nonneg 2]

end MemAI
